import Mathlib

/-!
Shallow embedding of `src/automation.py`, a fetch → translate → synthesize →
render → publish broadcast loop.

Modelling conventions:
* External services (feed parsing, the translation provider, the three TTS
  engines, the image download, ffprobe and ffmpeg) are oracles supplied as
  inputs; a Python exception raised by a call is an `Except.error`/`none`
  result of the corresponding oracle.
* A file on disk is modelled by its byte size: `Option Nat`, `none` meaning
  the file does not exist.
* Python's `str.split()`, `str.strip()` and `str.replace` are re-implemented
  structurally over `List Char` so that every definition evaluates by kernel
  reduction.
* The observable behaviour of one cycle of `broadcast_loop` is a list of
  `Event`s recording, in program order, the external calls and sleeps the
  code performs.
-/

/-- Python `str.split()` worker: split on runs of whitespace, dropping empty
words; `cur` holds the (reversed) characters of the word being read. -/
def pySplitAux : List Char → List Char → List String
  | [], [] => []
  | [], cur => [String.mk cur.reverse]
  | c :: cs, cur =>
    if c.isWhitespace then
      match cur with
      | [] => pySplitAux cs []
      | _ :: _ => String.mk cur.reverse :: pySplitAux cs []
    else pySplitAux cs (c :: cur)

/-- Python `s.split()`: whitespace-separated words of `s`, no empties. -/
def pySplit (s : String) : List String :=
  pySplitAux s.toList []

/-- Python `s.strip()`: drop leading and trailing whitespace. -/
def pyStrip (s : String) : String :=
  String.mk (((s.toList.dropWhile Char.isWhitespace).reverse.dropWhile
    Char.isWhitespace).reverse)

/-- Python `text.replace('"', '').replace("'", "").replace("\n", " ").strip()`
from `generate_audio_with_fallback`: drop double (34) and single (39) quotes,
turn newlines (10) into spaces (32), then strip. -/
def clean_text (t : String) : String :=
  pyStrip (String.mk (t.toList.filterMap (fun c =>
    if c = Char.ofNat 34 ∨ c = Char.ofNat 39 then none
    else if c = Char.ofNat 10 then some (Char.ofNat 32)
    else some c)))

/-- `automation.py` line 93-94: the translated text is replaced by the
original title when the provider returned `None` (`none` here), the empty
string, or a string whose stripped length is below 5. -/
def fallback_translated (translated : Option String) (title : String) : String :=
  match translated with
  | none => title
  | some t => if t.isEmpty || (pyStrip t).length < 5 then title else t

/-- `automation.py` line 96: `" ".join(translated.split()[:80]) + "."` —
the narration script is the first 80 whitespace-separated words re-joined
with single spaces, with a period appended. -/
def make_script (translated : String) : String :=
  " ".intercalate ((pySplit translated).take 80) ++ "."

/-- The first `n` whitespace-separated words of `t`, re-joined; the
truncation step the spec describes for the narration script. -/
def firstWords (n : Nat) (t : String) : String :=
  " ".intercalate ((pySplit t).take n)

/-- `suffix` is a suffix of `s` (structural re-implementation of
Python `str.endswith` so it kernel-evaluates). -/
def strEndsWith (s sfx : String) : Bool :=
  List.isPrefixOf sfx.toList.reverse s.toList.reverse

/-- A string already ending in sentence punctuation. -/
def sentenceTerminated (s : String) : Bool :=
  strEndsWith s "." || strEndsWith s "!" || strEndsWith s "?"

/-- Modelled from the spec (claim C6's wording, for comparison with
`make_script`): truncate to the first 80 words and append a period only if
the truncated text is not already sentence-terminated. -/
def claimC6_script (t : String) : String :=
  let u := firstWords 80 t
  if sentenceTerminated u then u else u ++ "."

/-- Outcome of one TTS engine attempt on the shared output file
`audio_{index}.mp3`: whether the call raised, and the state (byte size, or
`none` when missing) of that file after the attempt. -/
structure TTSResult where
  raised : Bool
  file : Option Nat
deriving Repr, DecidableEq

/-- The in-code success test of one engine attempt: the call did not raise
(otherwise the `except` branch skips the check), the file exists, and
`os.path.getsize` exceeds 100 bytes (`automation.py` lines 59/68/78). -/
def attemptSucceeds (r : TTSResult) : Bool :=
  !r.raised && (match r.file with
    | some n => decide (100 < n)
    | none => false)

/-- The output file name `f"audio_{index}.mp3"`, shared by all three engines. -/
def audioFileName (index : Nat) : String :=
  "audio_" ++ toString index ++ ".mp3"

/-- `automation.py` lines 48-83. An engine is an oracle taking the cleaned
text and the current state of the shared output file and returning a
`TTSResult`. Engines run in the fixed order `e1`, `e2`, `e3`; the first
attempt passing `attemptSucceeds` returns the output path; otherwise `none`. -/
def generate_audio_with_fallback
    (e1 e2 e3 : String → Option Nat → TTSResult)
    (text : String) (f0 : Option Nat) (index : Nat) : Option String :=
  let ct := clean_text text
  let r1 := e1 ct f0
  if attemptSucceeds r1 then some (audioFileName index)
  else
    let r2 := e2 ct r1.file
    if attemptSucceeds r2 then some (audioFileName index)
    else
      let r3 := e3 ct r2.file
      if attemptSucceeds r3 then some (audioFileName index)
      else none

/-- One news item as built by `get_news`. -/
structure Article where
  title : String
  summary : String
  image : String
deriving Repr, DecidableEq

/-- Observable external actions of the loop, in program order: the feed
fetch, the per-item pipeline stages (each tagged with the item index), the
`asyncio.sleep` pauses, the playlist write (with its lines), the blocking
stream push, and the end-of-cycle cleanup. -/
inductive Event where
  | fetch : Event
  | translateItem : Nat → Event
  | synthItem : Nat → Event
  | downloadItem : Nat → Event
  | probeItem : Nat → Event
  | renderItem : Nat → Event
  | sleep : Nat → Event
  | writePlaylist : List String → Event
  | streamPush : Event
  | cleanup : Event
deriving Repr, DecidableEq

/-- The external-world behaviour `generate_assets` meets for one item:
the translation provider's result (`Except.error` models a raised
exception; `Except.ok none` models the provider returning `None`), the
three TTS engines and the prior state of the shared audio file, whether
the image download (request plus file write) completes, the `ffprobe`
result, and the ffmpeg render's exit code and output-file state. -/
structure AssetEnv where
  translateResult : Except Unit (Option String)
  e1 : String → Option Nat → TTSResult
  e2 : String → Option Nat → TTSResult
  e3 : String → Option Nat → TTSResult
  audioFile0 : Option Nat
  downloadOk : Bool
  probeResult : Except Unit String
  ffmpegReturncode : Int
  ffmpegOutput : Option Nat

/-- The output file name `f"segment_{index}.mp4"`. -/
def segmentFileName (index : Nat) : String :=
  "segment_" ++ toString index ++ ".mp4"

/-- `automation.py` lines 85-137, `generate_assets`: translate (with the
title fallback), build the script, synthesize audio with the engine chain,
download the image, probe the audio duration, render with ffmpeg, and
accept the output only when the exit code is 0 and the file exists with
more than 1000 bytes. Any raised step makes the outer `except` return
`None`. Returns the result together with the stages reached, as events. -/
def generate_assets (env : AssetEnv) (item : Article) (index : Nat) :
    Option String × List Event :=
  match env.translateResult with
  | .error _ => (none, [Event.translateItem index])
  | .ok tr =>
    let translated := fallback_translated tr item.title
    let script := make_script translated
    match generate_audio_with_fallback env.e1 env.e2 env.e3 script
        env.audioFile0 index with
    | none => (none, [Event.translateItem index, Event.synthItem index])
    | some _ =>
      if env.downloadOk then
        match env.probeResult with
        | .error _ =>
          (none, [Event.translateItem index, Event.synthItem index,
                  Event.downloadItem index, Event.probeItem index])
        | .ok _ =>
          let res :=
            if env.ffmpegReturncode ≠ 0 then none
            else match env.ffmpegOutput with
              | some n => if 1000 < n then some (segmentFileName index) else none
              | none => none
          (res, [Event.translateItem index, Event.synthItem index,
                 Event.downloadItem index, Event.probeItem index,
                 Event.renderItem index])
      else
        (none, [Event.translateItem index, Event.synthItem index,
                Event.downloadItem index])

/-- One line of `playlist.txt`: `f"file '{v}'"` (`automation.py` line 164). -/
def manifestLine (v : String) : String :=
  "file \x27" ++ v ++ "\x27"

/-- The per-item loop of `broadcast_loop` (lines 151-155): items are
processed strictly in order; a successful item appends its video to the
segment list and is followed by `await asyncio.sleep(2)`; a failed item
appends nothing and is followed by no sleep. `envs i` is the external
world item `i` runs against; the accumulators mirror the growing event
trace and `video_segments` list. -/
def cycle_items_go (envs : Nat → AssetEnv) :
    List Article → Nat → List Event → List String → List Event × List String
  | [], _, evs, segs => (evs, segs)
  | item :: rest, i, evs, segs =>
    match (generate_assets (envs i) item i).1 with
    | some v =>
      cycle_items_go envs rest (i + 1)
        (evs ++ (generate_assets (envs i) item i).2 ++ [Event.sleep 2]) (segs ++ [v])
    | none =>
      cycle_items_go envs rest (i + 1) (evs ++ (generate_assets (envs i) item i).2) segs

/-- The per-item loop started on the fetched items with empty trace and
empty `video_segments`. -/
def cycle_items (envs : Nat → AssetEnv) (items : List Article) :
    List Event × List String :=
  cycle_items_go envs items 0 [] []

/-- One iteration of the `while True` loop (lines 147-182): fetch, process
every item, then either — with zero segments — sleep 60 and retry, or
write the playlist, run the blocking stream push, and clean up. -/
def run_cycle (envs : Nat → AssetEnv) (items : List Article) : List Event :=
  Event.fetch ::
    (if (cycle_items envs items).2.isEmpty then
      (cycle_items envs items).1 ++ [Event.sleep 60]
    else
      (cycle_items envs items).1 ++
        [Event.writePlaylist ((cycle_items envs items).2.map manifestLine),
         Event.streamPush, Event.cleanup])

/-- `fuel` unrollings of the `while True` loop, starting at cycle number
`c`; `envs c i` is the world item `i` of cycle `c` runs against and
`itemss c` the items its fetch returns. -/
def run_cycles (envs : Nat → Nat → AssetEnv) (itemss : Nat → List Article) :
    Nat → Nat → List Event
  | 0, _ => []
  | Nat.succ n, c => run_cycle (envs c) (itemss c) ++ run_cycles envs itemss n (c + 1)

/-- `broadcast_loop` (lines 139-182): if the stream key is missing
(`os.getenv` returned `None`) or empty — Python's `not STREAM_KEY` — the
function returns at once, producing no events at all; otherwise it runs
the cycle loop. -/
def broadcast_loop (key : Option String) (envs : Nat → Nat → AssetEnv)
    (itemss : Nat → List Article) (fuel : Nat) : List Event :=
  match key with
  | none => []
  | some k => if k.isEmpty then [] else run_cycles envs itemss fuel 0

/-- The ordered outputs of the successfully rendered items starting at
index `i`, in fetch order, with every failed item absent — the shape the
spec claims for the playlist content. -/
def successesFrom (envs : Nat → AssetEnv) : List Article → Nat → List String
  | [], _ => []
  | item :: rest, i =>
    match (generate_assets (envs i) item i).1 with
    | some v => v :: successesFrom envs rest (i + 1)
    | none => successesFrom envs rest (i + 1)

/-- Modelled from the spec (claim C8's wording, for comparison with the
trace `cycle_items_go` produces): every item's processing events are
followed by the fixed cooldown pause, successful or not. -/
def claimC8_trace (envs : Nat → AssetEnv) : List Article → Nat → List Event
  | [], _ => []
  | item :: rest, i =>
    (generate_assets (envs i) item i).2 ++ [Event.sleep 2] ++
      claimC8_trace envs rest (i + 1)

/-- The item-phase trace the code actually produces: each item's processing
events are contiguous, and the cooldown pause follows exactly the items
whose segment succeeded. -/
def cooldownAfterSuccessTrace (envs : Nat → AssetEnv) :
    List Article → Nat → List Event
  | [], _ => []
  | item :: rest, i =>
    (generate_assets (envs i) item i).2 ++
      (match (generate_assets (envs i) item i).1 with
        | some _ => [Event.sleep 2]
        | none => []) ++
      cooldownAfterSuccessTrace envs rest (i + 1)

/-- File matched by the cleanup filter `f.endswith((".mp4", ".mp3", ".jpg"))`
(`automation.py` line 180). -/
def isMediaFile (f : String) : Bool :=
  strEndsWith f ".mp4" || strEndsWith f ".mp3" || strEndsWith f ".jpg"

/-- The cleanup step (lines 179-182) as a directory transformation: every
listed file whose name matches the media extensions has `os.remove`
attempted on it, errors ignored per file (`removeFails f = true` models a
failed removal, which leaves `f` behind); all other files are kept. -/
def cleanup_dir (files : List String) (removeFails : String → Bool) : List String :=
  files.filter (fun f => !isMediaFile f || removeFails f)

/-- Does `pat` occur as a contiguous substring of `s`? (Python's `in` on
strings, structurally over `List Char`.) -/
def listContainsSub (pat : List Char) : List Char → Bool
  | [] => List.isPrefixOf pat []
  | c :: cs => List.isPrefixOf pat (c :: cs) || listContainsSub pat cs

/-- Python `'image' in link.get('type', '')`. -/
def typeIsImage (ty : Option String) : Bool :=
  listContainsSub "image".toList (ty.getD "").toList

/-- One feed entry as the code reads it: `title`/`summary` (the empty
string standing for an absent or falsy value), the optional
`media_content` attribute — when present, a list whose elements carry an
optional `url` key (`none` = the key is missing, so `['url']` raises) —
and the optional `links` attribute, each link a `(type, href)` pair of
optional fields. -/
structure Entry where
  title : String
  summary : String
  media_content : Option (List (Option String))
  links : Option (List (Option String × Option String))
deriving Repr, DecidableEq

/-- The `links` scan of `get_news` (lines 32-34): the loop does not break,
so `img_url` ends as the `href` (possibly `None`) of the **last** link
whose type contains `"image"`, or the starting value when none matches. -/
def scanLinks : List (Option String × Option String) → Option String → Option String
  | [], acc => acc
  | (ty, href) :: rest, acc =>
    scanLinks rest (if typeIsImage ty then href else acc)

/-- The time-parameterized placeholder image URL of line 37. -/
def placeholderUrl (tok : String) : String :=
  "https://picsum.photos/1920/1080?random=" ++ tok

/-- Python `a or b` on strings: `b` when `a` is empty (falsy), else `a`. -/
def pyOrStr (a b : String) : String :=
  if a.isEmpty then b else a

/-- Extraction of one entry (`automation.py` lines 28-43). `none` models a
raised exception: `entry.media_content[0]` on an empty list, or the missing
`'url'` key. On success, the image URL falls back to the placeholder when
the chosen value is absent or empty, and title/summary fall back to the
fixed placeholder strings. -/
def extractEntry (e : Entry) (tok : String) : Option Article :=
  let imgStep : Option (Option String) :=
    match e.media_content with
    | some us =>
      match us with
      | [] => none
      | u :: _ =>
        match u with
        | some url => some (some url)
        | none => none
    | none =>
      match e.links with
      | some ls => some (scanLinks ls none)
      | none => some none
  match imgStep with
  | none => none
  | some img0 =>
    let img := match img0 with
      | some u => if u.isEmpty then placeholderUrl tok else u
      | none => placeholderUrl tok
    some { title := pyOrStr e.title "Habari Mpya",
           summary := pyOrStr e.summary (pyOrStr e.title "Maelezo hayapatikani kwa sasa."),
           image := img }

/-- The entry loop of one feed: entries are extracted in order and
appended; the first extraction that raises aborts the rest of this feed's
entries (the exception propagates to the per-feed `except`), keeping what
was already appended. -/
def processEntries (tok : String) : List Entry → List Article
  | [] => []
  | e :: rest =>
    match extractEntry e tok with
    | some a => a :: processEntries tok rest
    | none => []

/-- One feed source's parse result: `Except.error` models `feedparser.parse`
itself raising, `Except.ok` the parsed entry list. -/
abbrev FeedResult : Type := Except Unit (List Entry)

/-- `get_news` (lines 20-46): for each feed in order, take the first 6
entries and extract them until one raises; a feed-level error skips only
that feed; results accumulate across feeds in order. -/
def get_news : List FeedResult → String → List Article
  | [], _ => []
  | Except.error _ :: rest, tok => get_news rest tok
  | Except.ok entries :: rest, tok =>
    processEntries tok (entries.take 6) ++ get_news rest tok

/-- An engine whose attempt completes and leaves a 2000-byte file. -/
def okEngine : String → Option Nat → TTSResult :=
  fun _ _ => { raised := false, file := some 2000 }

/-- An engine whose attempt raises, leaving the file as it was. -/
def raiseEngine : String → Option Nat → TTSResult :=
  fun _ f => { raised := true, file := f }

/-- An engine whose attempt completes but leaves only a 50-byte file. -/
def tinyEngine : String → Option Nat → TTSResult :=
  fun _ _ => { raised := false, file := some 50 }

/-- A world in which every stage of `generate_assets` succeeds. -/
def envOK : AssetEnv :=
  { translateResult := Except.ok (some "Habari njema kutoka mjini leo hii")
    e1 := okEngine
    e2 := okEngine
    e3 := okEngine
    audioFile0 := none
    downloadOk := true
    probeResult := Except.ok "12.5"
    ffmpegReturncode := 0
    ffmpegOutput := some 50000 }

/-- Like `envOK` but the ffmpeg render exits non-zero. -/
def envRenderFail : AssetEnv :=
  { envOK with ffmpegReturncode := 1 }

/-- Like `envOK` but the translation call raises. -/
def envTranslateRaise : AssetEnv :=
  { envOK with translateResult := Except.error () }

/-- A fixed demo news item. -/
def demoItem : Article :=
  { title := "Mfano", summary := "Muhtasari wa habari",
    image := "http://example.com/a.jpg" }

/-- Four processed items where items 2 and 3 (indices 1 and 2) fail
rendering and items 1 and 4 (indices 0 and 3) succeed. -/
def envs4 : Nat → AssetEnv :=
  fun i => if i = 1 ∨ i = 2 then envRenderFail else envOK

/-- Four identical fetched items. -/
def items4 : List Article := [demoItem, demoItem, demoItem, demoItem]

/-- Two processed items where the first fails (translation raises) and the
second succeeds. -/
def envs2 : Nat → AssetEnv :=
  fun i => if i = 0 then envTranslateRaise else envOK

/-- Two identical fetched items. -/
def items2 : List Article := [demoItem, demoItem]

/-- A world in which every item fails rendering. -/
def envsAllFail : Nat → AssetEnv := fun _ => envRenderFail

/-- A single fetched item. -/
def items1 : List Article := [demoItem]

/-- A demo working directory: this cycle's transient files, the playlist,
and a media file left over from an earlier run. -/
def demoFiles : List String :=
  ["segment_0.mp4", "audio_0.mp3", "image_0.jpg", "playlist.txt", "leftover.mp4"]

/-- A removal oracle under which only removing `audio_0.mp3` errors. -/
def demoRemoveFails : String → Bool := fun f => f = "audio_0.mp3"

/-- An entry carrying a well-formed media-content attachment. -/
def entryGood1 : Entry :=
  { title := "A", summary := "S1",
    media_content := some [some "http://img/1.jpg"], links := none }

/-- A malformed entry: the media-content attribute is present but empty, so
`entry.media_content[0]` raises. -/
def entryBad : Entry :=
  { title := "B", summary := "S2", media_content := some [], links := none }

/-- An entry whose image comes from an image-typed link. -/
def entryGood2 : Entry :=
  { title := "C", summary := "S3", media_content := none,
    links := some [(some "image/jpeg", some "http://img/2.jpg")] }


/-! ## Helper lemmas -/

/-- The item trace of `generate_assets` is one of five fixed stage
prefixes, so it never contains loop-level events. -/
theorem generate_assets_trace_shapes (env : AssetEnv) (item : Article) (i : Nat) :
    (generate_assets env item i).2 = [Event.translateItem i] ∨
    (generate_assets env item i).2 = [Event.translateItem i, Event.synthItem i] ∨
    (generate_assets env item i).2 =
      [Event.translateItem i, Event.synthItem i, Event.downloadItem i] ∨
    (generate_assets env item i).2 =
      [Event.translateItem i, Event.synthItem i, Event.downloadItem i,
       Event.probeItem i] ∨
    (generate_assets env item i).2 =
      [Event.translateItem i, Event.synthItem i, Event.downloadItem i,
       Event.probeItem i, Event.renderItem i] := by
  unfold generate_assets
  cases htr : env.translateResult with
  | error e => simp
  | ok tr =>
    cases hga : generate_audio_with_fallback env.e1 env.e2 env.e3
        (make_script (fallback_translated tr item.title)) env.audioFile0 i with
    | none => simp [hga]
    | some a =>
      cases hd : env.downloadOk with
      | false => simp [hga, hd]
      | true =>
        cases hp : env.probeResult with
        | error e => simp [hga, hd, hp]
        | ok d => simp [hga, hd, hp]

/-- The stream push never appears in a single item's trace. -/
theorem streamPush_notin_assets_trace (env : AssetEnv) (item : Article) (i : Nat) :
    Event.streamPush ∉ (generate_assets env item i).2 := by
  rcases generate_assets_trace_shapes env item i with h | h | h | h | h <;>
    rw [h] <;> simp

/-- Unfolding of the per-item loop: starting from accumulators `evs`,
`segs`, it appends the cooldown-after-success trace and, in fetch order,
the successful outputs. -/
theorem cycle_items_go_spec (envs : Nat → AssetEnv) (items : List Article) :
    ∀ (i : Nat) (evs : List Event) (segs : List String),
      cycle_items_go envs items i evs segs =
        (evs ++ cooldownAfterSuccessTrace envs items i,
         segs ++ successesFrom envs items i) := by
  induction items with
  | nil =>
    intro i evs segs
    simp [cycle_items_go, cooldownAfterSuccessTrace, successesFrom]
  | cons item rest ih =>
    intro i evs segs
    cases h : (generate_assets (envs i) item i).1 with
    | some v =>
      simp only [cycle_items_go, cooldownAfterSuccessTrace, successesFrom, h, ih]
      simp
    | none =>
      simp only [cycle_items_go, cooldownAfterSuccessTrace, successesFrom, h, ih]
      simp

/-- The per-item loop as a whole: its trace is the cooldown-after-success
trace and its segment list the ordered successes. -/
theorem cycle_items_spec (envs : Nat → AssetEnv) (items : List Article) :
    cycle_items envs items =
      (cooldownAfterSuccessTrace envs items 0, successesFrom envs items 0) := by
  simpa using cycle_items_go_spec envs items 0 [] []

/-- The stream push never appears in the item-phase trace. -/
theorem streamPush_notin_cooldown_trace (envs : Nat → AssetEnv) :
    ∀ (items : List Article) (i : Nat),
      Event.streamPush ∉ cooldownAfterSuccessTrace envs items i := by
  intro items
  induction items with
  | nil => intro i; simp [cooldownAfterSuccessTrace]
  | cons item rest ih =>
    intro i
    simp only [cooldownAfterSuccessTrace, List.mem_append]
    push_neg
    refine ⟨⟨streamPush_notin_assets_trace (envs i) item i, ?_⟩, ih (i + 1)⟩
    cases h : (generate_assets (envs i) item i).1 <;> simp

/-- Every cycle's event trace begins with the feed fetch. -/
theorem run_cycle_starts_with_fetch (envs : Nat → AssetEnv) (items : List Article) :
    ∃ t, run_cycle envs items = Event.fetch :: t :=
  ⟨_, rfl⟩

/-! ## Claim theorems -/

/-- C8 counterexample: with two items where the first fails (translation
raises) and the second succeeds, the item-phase trace of the cycle is NOT
"every item's processing followed by the fixed cooldown pause" — the
failed item 0 is followed immediately by item 1's processing, with no
`sleep 2` in between. -/
theorem C8_counterexample :
    (cycle_items envs2 items2).1 ≠ claimC8_trace envs2 items2 0 := by
  decide

/-- C8 (amended): within a cycle the items are processed strictly
sequentially — each item's processing events are contiguous, fully before
the next item's — and the fixed 2-unit cooldown pause follows exactly the
items whose segment succeeded; a failed item is followed immediately by
the next item's processing. -/
theorem C8_sequential_cooldown_after_success (envs : Nat → AssetEnv)
    (items : List Article) :
    (cycle_items envs items).1 = cooldownAfterSuccessTrace envs items 0 := by
  rw [cycle_items_spec]

/-- C3: the playlist holds exactly one line (`file '<path>'`) per
successfully rendered segment, in the order the items were processed, with
every failed item absent; the write happens in the cycle whenever at least
one segment succeeded. -/
theorem C3_manifest_successes_in_order (envs : Nat → AssetEnv)
    (items : List Article) (h : (cycle_items envs items).2 ≠ []) :
    (cycle_items envs items).2 = successesFrom envs items 0 ∧
    Event.writePlaylist ((cycle_items envs items).2.map manifestLine) ∈
      run_cycle envs items := by
  constructor
  · rw [cycle_items_spec]
  · have hne : (cycle_items envs items).2.isEmpty = false := by
      simpa [List.isEmpty_iff] using h
    unfold run_cycle
    simp [hne]

/-- C3 witness: four processed items where items 2 and 3 fail rendering —
at least one segment succeeded, and the manifest written this cycle is
exactly the lines for items 1 and 4 (`segment_0.mp4`, `segment_3.mp4`),
in that order. -/
theorem C3_manifest_witness :
    (cycle_items envs4 items4).2 ≠ [] ∧
    Event.writePlaylist [manifestLine (segmentFileName 0),
      manifestLine (segmentFileName 3)] ∈ run_cycle envs4 items4 := by
  have hsegs : (cycle_items envs4 items4).2 = [segmentFileName 0, segmentFileName 3] := by
    decide
  have hne : (cycle_items envs4 items4).2 ≠ [] := by
    rw [hsegs]; decide
  have hmain := C3_manifest_successes_in_order envs4 items4 hne
  refine ⟨hne, ?_⟩
  have := hmain.2
  rw [hsegs] at this
  simpa using this

/-- C4: in a cycle with zero successfully rendered segments, the stream
publisher is never invoked, the cycle's trace is exactly the item
processing followed by the fixed 60-unit back-off sleep, and — in the
running loop — the event right after that back-off is the next cycle's
fetch. -/
theorem C4_zero_segments_backoff (envs : Nat → Nat → AssetEnv)
    (itemss : Nat → List Article) (c n : Nat)
    (h : (cycle_items (envs c) (itemss c)).2 = []) :
    Event.streamPush ∉ run_cycle (envs c) (itemss c) ∧
    run_cycle (envs c) (itemss c) =
      Event.fetch :: ((cycle_items (envs c) (itemss c)).1 ++ [Event.sleep 60]) ∧
    (∃ t, run_cycles envs itemss (n + 2) c =
      (Event.fetch :: ((cycle_items (envs c) (itemss c)).1 ++ [Event.sleep 60])) ++
        Event.fetch :: t) := by
  have hemp : (cycle_items (envs c) (itemss c)).2.isEmpty = true := by
    rw [h]; rfl
  have hcyc : run_cycle (envs c) (itemss c) =
      Event.fetch :: ((cycle_items (envs c) (itemss c)).1 ++ [Event.sleep 60]) := by
    unfold run_cycle
    rw [hemp]
    simp
  refine ⟨?_, hcyc, ?_⟩
  · rw [hcyc]
    intro hmem
    rcases List.mem_cons.mp hmem with h1 | h1
    · exact Event.noConfusion h1
    · rcases List.mem_append.mp h1 with h2 | h2
      · rw [cycle_items_spec] at h2
        exact streamPush_notin_cooldown_trace (envs c) (itemss c) 0 h2
      · simp at h2
  · obtain ⟨t1, ht1⟩ := run_cycle_starts_with_fetch (envs (c + 1)) (itemss (c + 1))
    refine ⟨t1 ++ run_cycles envs itemss n (c + 2), ?_⟩
    show run_cycles envs itemss (Nat.succ (Nat.succ n)) c = _
    rw [run_cycles, run_cycles, hcyc, ht1]
    simp

/-- C4 witness: one fetched item whose render fails — zero segments, the
publisher is not invoked and the cycle ends in the 60-unit back-off
followed by the next fetch. -/
theorem C4_backoff_witness :
    (cycle_items envsAllFail items1).2 = [] ∧
    Event.streamPush ∉ run_cycle envsAllFail items1 ∧
    (∃ t, run_cycles (fun _ => envsAllFail) (fun _ => items1) 2 0 =
      (Event.fetch :: ((cycle_items envsAllFail items1).1 ++ [Event.sleep 60])) ++
        Event.fetch :: t) := by
  have h : (cycle_items envsAllFail items1).2 = [] := by decide
  have hmain := C4_zero_segments_backoff (fun _ => envsAllFail) (fun _ => items1) 0 0 h
  exact ⟨h, hmain.1, hmain.2.2⟩

/-- C7: with the stream credential absent from the environment,
`broadcast_loop` produces no events at all — no network request, no
subprocess invocation, no fetch — however many loop iterations it is
offered: it terminates at once and never retries. -/
theorem C7_missing_key_terminates (envs : Nat → Nat → AssetEnv)
    (itemss : Nat → List Article) (fuel : Nat) :
    broadcast_loop none envs itemss fuel = [] := rfl

/-- C1: the three TTS engines are tried in fixed order on the shared
output file; the first attempt that completes with the file present and
over 100 bytes short-circuits (the later engines' behaviour is irrelevant)
and its output path is returned; if every attempt fails — raises, or
leaves the file missing or at 100 bytes or fewer — the synthesizer
returns `none`; in particular when attempts 1 and 2 fail and attempt 3
succeeds, the (shared) output path of engine 3 is returned. -/
theorem C1_engine_fallback_chain (e1 e2 e3 : String → Option Nat → TTSResult)
    (text : String) (f0 : Option Nat) (i : Nat) :
    (attemptSucceeds (e1 (clean_text text) f0) = true →
      generate_audio_with_fallback e1 e2 e3 text f0 i = some (audioFileName i)) ∧
    (attemptSucceeds (e1 (clean_text text) f0) = false →
     attemptSucceeds (e2 (clean_text text) (e1 (clean_text text) f0).file) = true →
      generate_audio_with_fallback e1 e2 e3 text f0 i = some (audioFileName i)) ∧
    (attemptSucceeds (e1 (clean_text text) f0) = false →
     attemptSucceeds (e2 (clean_text text) (e1 (clean_text text) f0).file) = false →
     attemptSucceeds (e3 (clean_text text)
       (e2 (clean_text text) (e1 (clean_text text) f0).file).file) = true →
      generate_audio_with_fallback e1 e2 e3 text f0 i = some (audioFileName i)) ∧
    (attemptSucceeds (e1 (clean_text text) f0) = false →
     attemptSucceeds (e2 (clean_text text) (e1 (clean_text text) f0).file) = false →
     attemptSucceeds (e3 (clean_text text)
       (e2 (clean_text text) (e1 (clean_text text) f0).file).file) = false →
      generate_audio_with_fallback e1 e2 e3 text f0 i = none) := by
  unfold generate_audio_with_fallback
  refine ⟨fun h1 => ?_, fun h1 h2 => ?_, fun h1 h2 h3 => ?_, fun h1 h2 h3 => ?_⟩
  · simp [h1]
  · simp [h1, h2]
  · simp [h1, h2, h3]
  · simp [h1, h2, h3]

/-- C1 witness: engine 1 raises, engine 2 leaves only a 50-byte file,
engine 3 leaves a 2000-byte file — attempts 1 and 2 fail, attempt 3
succeeds, and the function returns the shared output path `audio_7.mp3`. -/
theorem C1_engine_fallback_witness :
    attemptSucceeds (raiseEngine (clean_text "habari za leo") none) = false ∧
    attemptSucceeds (tinyEngine (clean_text "habari za leo")
      (raiseEngine (clean_text "habari za leo") none).file) = false ∧
    attemptSucceeds (okEngine (clean_text "habari za leo")
      (tinyEngine (clean_text "habari za leo")
        (raiseEngine (clean_text "habari za leo") none).file).file) = true ∧
    generate_audio_with_fallback raiseEngine tinyEngine okEngine
      "habari za leo" none 7 = some (audioFileName 7) := by
  have h1 : attemptSucceeds (raiseEngine (clean_text "habari za leo") none) = false := by
    decide
  have h2 : attemptSucceeds (tinyEngine (clean_text "habari za leo")
      (raiseEngine (clean_text "habari za leo") none).file) = false := by
    decide
  have h3 : attemptSucceeds (okEngine (clean_text "habari za leo")
      (tinyEngine (clean_text "habari za leo")
        (raiseEngine (clean_text "habari za leo") none).file).file) = true := by
    decide
  exact ⟨h1, h2, h3,
    (C1_engine_fallback_chain raiseEngine tinyEngine okEngine
      "habari za leo" none 7).2.2.1 h1 h2 h3⟩

/-- C2: `generate_assets` yields no segment whenever the ffmpeg encode
exits non-zero or the output file is missing or at 1000 bytes or fewer;
and whenever it does yield a path, the exit code was 0, the output file
exists with strictly more than 1000 bytes, and the path is the segment
file of that index — a partial or undersized file is never returned. -/
theorem C2_render_threshold (env : AssetEnv) (item : Article) (i : Nat) :
    (env.ffmpegReturncode ≠ 0 → (generate_assets env item i).1 = none) ∧
    (env.ffmpegOutput = none → (generate_assets env item i).1 = none) ∧
    (∀ n, env.ffmpegOutput = some n → n ≤ 1000 →
      (generate_assets env item i).1 = none) ∧
    (∀ p, (generate_assets env item i).1 = some p →
      env.ffmpegReturncode = 0 ∧
        ∃ n, env.ffmpegOutput = some n ∧ 1000 < n ∧ p = segmentFileName i) := by
  unfold generate_assets
  cases htr : env.translateResult with
  | error e => simp
  | ok tr =>
    cases hga : generate_audio_with_fallback env.e1 env.e2 env.e3
        (make_script (fallback_translated tr item.title)) env.audioFile0 i with
    | none => simp [hga]
    | some a =>
      cases hd : env.downloadOk with
      | false => simp [hga, hd]
      | true =>
        cases hp : env.probeResult with
        | error e => simp [hga, hd, hp]
        | ok d =>
          by_cases hrc : env.ffmpegReturncode = 0
          · cases ho : env.ffmpegOutput with
            | none => simp [hga, hd, hp, hrc, ho]
            | some n =>
              by_cases hn : 1000 < n
              · refine ⟨?_, ?_, ?_, ?_⟩
                · intro hne; exact absurd hrc hne
                · intro hnone; exact Option.noConfusion hnone
                · intro m hm hle
                  cases hm
                  exact absurd hn (not_lt.mpr hle)
                · intro p hpeq
                  refine ⟨hrc, n, rfl, hn, ?_⟩
                  simp [hga, hrc, hn] at hpeq
                  exact hpeq.symm
              · simp [hga, hd, hp, hrc, ho, hn]
          · simp [hga, hd, hp, hrc]

/-- C2 witness: in a world where every earlier stage succeeds, an encode
exiting 0 with a 50000-byte output yields `segment_0.mp4`; flipping the
exit code to 1 yields no segment. -/
theorem C2_render_threshold_witness :
    (generate_assets envOK demoItem 0).1 = some (segmentFileName 0) ∧
    envRenderFail.ffmpegReturncode ≠ 0 ∧
    (generate_assets envRenderFail demoItem 0).1 = none := by
  have hne : envRenderFail.ffmpegReturncode ≠ 0 := by decide
  exact ⟨by decide, hne,
    (C2_render_threshold envRenderFail demoItem 0).1 hne⟩

/-- C5 counterexample: with the translation provider returning the empty
string and the (non-empty, feed-supplied) title "Oh", the title is
substituted, and the final narration text is "Oh." — 3 characters, below
the 5-character minimum the claim asserts for the translator output. -/
theorem C5_counterexample :
    fallback_translated (some "") "Oh" = "Oh" ∧
    make_script (fallback_translated (some "") "Oh") = "Oh." ∧
    (make_script (fallback_translated (some "") "Oh")).length < 5 := by
  decide

/-- C5 (amended): the final narration text is never empty, and whenever
the provider returns `None`, the empty string, or text whose stripped
length is below 5, the original title is substituted verbatim; the
resulting text may still be shorter than 5 characters when that fallback
title is itself short. -/
theorem C5_substitution_and_nonempty (tr : Option String) (title : String) :
    make_script (fallback_translated tr title) ≠ "" ∧
    ((tr = none ∨ ∃ s, tr = some s ∧ (s.isEmpty || (pyStrip s).length < 5) = true) →
      fallback_translated tr title = title) := by
  constructor
  · intro hcontra
    have hlen := congrArg String.length hcontra
    rw [make_script, String.length_append] at hlen
    have h1 : (".").length = 1 := rfl
    have h0 : ("" : String).length = 0 := rfl
    rw [h1, h0] at hlen
    omega
  · rintro (rfl | ⟨s, rfl, hs⟩)
    · rfl
    · simp [fallback_translated, hs]

/-- C5 witness: provider output empty, title "Mfano" — the script is
non-empty and the title was substituted verbatim. -/
theorem C5_substitution_witness :
    make_script (fallback_translated (some "") "Mfano") ≠ "" ∧
    fallback_translated (some "") "Mfano" = "Mfano" := by
  have hmain := C5_substitution_and_nonempty (some "") "Mfano"
  exact ⟨hmain.1, hmain.2 (Or.inr ⟨"", rfl, by decide⟩)⟩

/-- C6 counterexample: for the already sentence-terminated translated text
"Hello.", the code produces "Hello.." (the period is appended
unconditionally), while the claim's conditional-period rule produces
"Hello.", so the two differ. -/
theorem C6_counterexample :
    make_script "Hello." = "Hello.." ∧
    claimC6_script "Hello." = "Hello." ∧
    make_script "Hello." ≠ claimC6_script "Hello." := by
  decide

/-- C6 (amended): for every translated (or title-substituted) text, the
narration script equals that text truncated to its first 80
whitespace-separated words (re-joined with single spaces) with a period
appended unconditionally — even when the truncation is already
sentence-terminated. -/
theorem C6_truncate_append_period (t : String) :
    make_script t = firstWords 80 t ++ "." := rfl

/-- C9: a file survives the cleanup exactly when it was present and either
does not match the `.mp4`/`.mp3`/`.jpg` extensions or its removal errored
(each file's error is ignored, affecting no other file); the playlist
manifest never matches, so it is untouched; with no removal errors the
cleanup removes exactly the matching files — whichever cycle created
them — and leaves all others. -/
theorem C9_cleanup_filter (files : List String) (removeFails : String → Bool) :
    (∀ f, f ∈ cleanup_dir files removeFails ↔
      f ∈ files ∧ (isMediaFile f = false ∨ removeFails f = true)) ∧
    isMediaFile "playlist.txt" = false ∧
    cleanup_dir files (fun _ => false) = files.filter (fun f => !isMediaFile f) := by
  refine ⟨?_, by decide, ?_⟩
  · intro f
    simp [cleanup_dir, List.mem_filter, Bool.or_eq_true, Bool.not_eq_true']
  · simp [cleanup_dir]

/-- C9 witness: a directory holding this cycle's media files, the
playlist, and a leftover media file from an earlier run; removal of
`audio_0.mp3` errors. Exactly the other media files (the leftover
included) disappear; the playlist survives. -/
theorem C9_cleanup_witness :
    cleanup_dir demoFiles demoRemoveFails = ["audio_0.mp3", "playlist.txt"] ∧
    ("playlist.txt" ∈ cleanup_dir demoFiles demoRemoveFails ↔
      "playlist.txt" ∈ demoFiles ∧
        (isMediaFile "playlist.txt" = false ∨ demoRemoveFails "playlist.txt" = true)) := by
  exact ⟨by decide, (C9_cleanup_filter demoFiles demoRemoveFails).1 "playlist.txt"⟩

/-- `get_news` distributes over the concatenation of two feed lists. -/
theorem get_news_append (pre post : List FeedResult) (tok : String) :
    get_news (pre ++ post) tok = get_news pre tok ++ get_news post tok := by
  induction pre with
  | nil => rfl
  | cons f rest ih =>
    cases f with
    | error e => simp [get_news, ih]
    | ok entries => simp [get_news, ih]

/-- When every entry of `good` extracts and `bad` raises, the entry loop
keeps exactly the extractions of `good` and drops `bad` and everything
after it. -/
theorem processEntries_stops_at_error (tok : String) (good : List Entry)
    (bad : Entry) (rest : List Entry)
    (hgood : ∀ e ∈ good, (extractEntry e tok).isSome = true)
    (hbad : extractEntry bad tok = none) :
    processEntries tok (good ++ bad :: rest) =
      good.filterMap (fun e => extractEntry e tok) := by
  induction good with
  | nil => simp [processEntries, hbad]
  | cons e g ih =>
    have he := hgood e (by simp)
    obtain ⟨a, ha⟩ := Option.isSome_iff_exists.mp he
    have ihg := ih (fun x hx => hgood x (by simp [hx]))
    simp [processEntries, ha, ihg]

/-- C10: when one feed's entry list (at most the 6 the code reads) starts
with entries that extract, followed by one whose extraction raises, the
raise abandons that feed's remaining entries while the already extracted
entries stay in the result, and the feeds before and after are still
processed normally. -/
theorem C10_entry_failure_isolation (pre post : List FeedResult)
    (good : List Entry) (bad : Entry) (rest : List Entry) (tok : String)
    (hlen : (good ++ bad :: rest).length ≤ 6)
    (hgood : ∀ e ∈ good, (extractEntry e tok).isSome = true)
    (hbad : extractEntry bad tok = none) :
    get_news (pre ++ Except.ok (good ++ bad :: rest) :: post) tok =
      get_news pre tok ++ good.filterMap (fun e => extractEntry e tok) ++
        get_news post tok := by
  rw [get_news_append]
  have htake : (good ++ bad :: rest).take 6 = good ++ bad :: rest :=
    List.take_of_length_le hlen
  rw [get_news, htake,
    processEntries_stops_at_error tok good bad rest hgood hbad,
    List.append_assoc]

/-- C10 witness: four feeds — a healthy one, one whose second entry has a
malformed (empty) media-content attachment followed by a further entry,
one whose parse fails, and a final healthy one. The result keeps the
failing feed's first entry, drops its remaining entries, and still has
both surrounding feeds' articles. -/
theorem C10_isolation_witness :
    get_news [Except.ok [entryGood2], Except.ok [entryGood1, entryBad, entryGood1],
        Except.error (), Except.ok [entryGood1]] "42" =
      get_news [Except.ok [entryGood2]] "42" ++
        [entryGood1].filterMap (fun e => extractEntry e "42") ++
        get_news [Except.error (), Except.ok [entryGood1]] "42" ∧
    get_news [Except.ok [entryGood2], Except.ok [entryGood1, entryBad, entryGood1],
        Except.error (), Except.ok [entryGood1]] "42" =
      [{ title := "C", summary := "S3", image := "http://img/2.jpg" },
       { title := "A", summary := "S1", image := "http://img/1.jpg" },
       { title := "A", summary := "S1", image := "http://img/1.jpg" }] := by
  refine ⟨?_, by decide⟩
  exact C10_entry_failure_isolation [Except.ok [entryGood2]]
    [Except.error (), Except.ok [entryGood1]] [entryGood1] entryBad [entryGood1]
    "42" (by decide) (by decide) (by decide)
